import Mathlib

/-!
# go-log-sls: the asynchronous log shipper of `log/log.go`

A shallow embedding of `Logger` (`NewLogger`, `doLog`, `getTimeUnix`,
`dispatchLogs`, `Close`, `Check`) together with the goroutines it starts.

* Calls into collaborators (`fmt.Println`, `ding.SendMessageText`,
  `client.PutLogs`, channel send, `sync.WaitGroup`) are recorded as explicit
  effects: a call of `doLog` or `Close` reads the logger once and yields the
  ordered list of `Action`s it performs; `applyAction` gives each action its
  effect on the `World`.
* Goroutines interleave through `step`, one atomic action per `Event`.
* `json.Marshal`, `time.LoadLocation`, the allocation of the channel buffer and
  the clock are inputs (`Env`, clock readings); Go `int` is `Int`, `uint32(x)`
  is `x % 2^32`.
-/

namespace GoLogSls

/-! ## Data model -/

/-- The struct `LogConfig`, restricted to the fields the logic reads. -/
structure LogConfig where
  ProjectName : String
  LogStoreName : String
  LogChanNum : Int
  LogConsumeNum : Int
  Debug : Bool
  deriving DecidableEq, Repr

/-- The struct `Msg`. -/
structure Msg where
  Key : String
  Val : String
  deriving DecidableEq, Repr

/-- The struct `Message`. -/
structure Message where
  Timezone : String
  Cate : String
  Message : List Msg
  deriving DecidableEq, Repr

/-- The struct `sls.LogContent`: one key/value pair of a log entry. -/
structure LogContent where
  Key : String
  Value : String
  deriving DecidableEq, Repr

/-- The struct `sls.Log`: one timestamped log entry (a record). -/
structure Log where
  Time : Nat
  Contents : List LogContent
  deriving DecidableEq, Repr

/-- The struct `sls.LogGroup`: the batch handed to `PutLogs`. -/
structure LogGroup where
  Topic : String
  Category : String
  Logs : List Log
  deriving DecidableEq, Repr

/-- The dynamic value behind the `any` parameter of the entry points. The type
switch of `doLog` distinguishes `string`, `Message` and everything else. -/
inductive Payload where
  | str (s : String)
  | message (m : Message)
  | int (n : Int)
  | messagePtr (m : Message)
  | other (tag : Nat)
  deriving DecidableEq, Repr

/-- The collaborators whose results the code consumes: `json.Marshal` (the
bytes, or `none` when it returns an error), `time.LoadLocation` (whether the
zone name resolves), and the Go runtime behind `make(chan *sls.LogGroup, n)`
(whether it can allocate a buffer of `n` slots; what the runtime does with a
negative `n` is fixed in `NewLogger`). -/
structure Env where
  marshal : Payload → Option String
  loadLocation : String → Bool
  makeChan : Int → Bool

/-- The fields of the struct `Logger` that carry state: the buffered channel
`logChan` (its content, oldest first; its capacity is `config.LogChanNum`), the
`sync.WaitGroup` counter, the flag `closed`, and whether `closeChan` has been
closed. -/
structure Logger where
  config : LogConfig
  logChan : List LogGroup
  wg : Int
  closed : Bool
  closeChan : Bool
  deriving DecidableEq, Repr

/-- One effect of a call, in program order. -/
inductive Action where
  | println (tag : String) (message : Payload)
  | ding (text : String)
  | send (g : LogGroup)
  | wgAdd (delta : Int)
  | closeSignal
  | wgWait
  deriving DecidableEq, Repr

/-! ## `getTimeUnix` -/

/-- Go conversion `uint32(x)` of an `int64`. -/
def uint32 (x : Int) : Nat := (x % 4294967296).toNat

/-- `Time.Unix()`: seconds since the epoch. `In(location)` and `UTC()` change
the presentation of a `time.Time`, not the instant, so the result is the clock
reading itself. -/
def unixIn (_located : Bool) (now : Int) : Int := now

/-- `Logger.getTimeUnix`. `now1` is the clock reading of the first `time.Now()`
(line 196), `now2` the reading of the one in the fallback block (lines 202 and 204). -/
def getTimeUnix (loadLocation : String → Bool) (now1 now2 : Int) (timeLocation : String) : Nat :=
  let timeS : Nat := 0
  let timeS :=
    if timeLocation ≠ "" then
      if loadLocation timeLocation then uint32 (unixIn true now1) else timeS
    else timeS
  if timeS < 1 then
    if ¬ loadLocation "Asia/Shanghai" then uint32 (unixIn false now2)
    else uint32 (unixIn true now2)
  else timeS

/-! ## `Check`, `doLog`, `Close` -/

/-- `Logger.Check`. -/
def Logger.Check (l : Logger) : Bool :=
  if l.closed then true else false

/-- The `string(org)` of `doLog`: the bytes `json.Marshal` returned, empty when
it returned an error (the error is discarded). -/
def orgString (env : Env) (message : Payload) : String :=
  (env.marshal message).getD ""

/-- The content list of `doLog` (lines 164-169). -/
def buildContent (msgs : List Msg) : List LogContent :=
  msgs.map (fun msgTmp => { Key := msgTmp.Key, Value := msgTmp.Val })

/-- Lines 171-183 of `doLog`: one `sls.Log` holding `content`, in one group. -/
def buildLogGroup (types cate : String) (timeS : Nat) (msgs : List Msg) : LogGroup :=
  { Topic := types, Category := cate,
    Logs := [] ++ [{ Time := timeS, Contents := buildContent msgs }] }

/-- `Logger.doLog`: the effects of one call, in order. The logger is read at
the start of the call (`config.Debug`, then `Check()`). -/
def doLog (l : Logger) (env : Env) (now1 now2 : Int) (message : Payload) (types : String) :
    List Action :=
  if l.config.Debug then
    [Action.println ("[" ++ types ++ "]:") message]
  else
    let org := orgString env message
    if l.Check then
      [Action.ding (types ++ " 日志写入失败，日志通道已关闭，原始数据：" ++ org)]
    else
      match message with
      | Payload.str s =>
        let timeS := getTimeUnix env.loadLocation now1 now2 ""
        let msgs := [] ++ [({ Key := "message", Val := s } : Msg)]
        [Action.send (buildLogGroup types "" timeS msgs), Action.wgAdd 1]
      | Payload.message tmp =>
        let timeS := getTimeUnix env.loadLocation now1 now2 tmp.Timezone
        let cate := tmp.Cate
        let msgs := tmp.Message.map (fun v => ({ Key := v.Key, Val := v.Val } : Msg))
        [Action.send (buildLogGroup types cate timeS msgs), Action.wgAdd 1]
      | _ =>
        [Action.ding
          (types ++ " 日志写入失败，只允许传递string, Message 格式类型数据，原始数据：" ++ org)]

/-- `Logger.Close`: the effects of one call, in order. -/
def Close (l : Logger) : List Action :=
  if ¬ l.Check then [Action.closeSignal, Action.wgWait] else []

/-! ## The running system -/

/-- The control state of one goroutine started by `dispatchLogs`: started but
not yet run, waiting at the `select`, holding a received group before
`PutLogs`, between `PutLogs` and `wg.Done()`, or returned. -/
inductive Worker where
  | spawned
  | idle
  | got (g : LogGroup)
  | afterPut
  | exited
  deriving DecidableEq, Repr

/-- The operands of one call of `fmt.Println`: a text alone, or a text followed
by the payload. -/
inductive Printed where
  | text (s : String)
  | tagged (tag : String) (message : Payload)
  deriving DecidableEq, Repr

/-- The logger together with what surrounds it: the dispatch goroutines, the
texts passed to `ding.SendMessageText`, the groups passed to `client.PutLogs`,
the lines printed, and the panic that ended the process, if any. -/
structure World where
  logger : Logger
  workers : List Worker
  dingSent : List String
  putLogs : List LogGroup
  stdout : List Printed
  panicked : Option String
  deriving DecidableEq, Repr

/-- The effect of one action of a caller; `none` when the action cannot proceed
now (send on a full channel, `Wait` on a non-zero counter, or the process has
panicked). A channel of capacity 0 has no buffer slot, so a send on it waits. -/
def applyAction (w : World) (a : Action) : Option World :=
  if w.panicked.isSome then none else
  match a with
  | Action.println tag message => some { w with stdout := w.stdout ++ [Printed.tagged tag message] }
  | Action.ding text => some { w with dingSent := w.dingSent ++ [text] }
  | Action.send g =>
    if (w.logger.logChan.length : Int) < w.logger.config.LogChanNum then
      some { w with logger := { w.logger with logChan := w.logger.logChan ++ [g] } }
    else none
  | Action.wgAdd delta =>
    let v := w.logger.wg + delta
    let w1 := { w with logger := { w.logger with wg := v } }
    if v < 0 then some { w1 with panicked := some "sync: negative WaitGroup counter" }
    else some w1
  | Action.closeSignal =>
    if w.logger.closeChan then some { w with panicked := some "close of closed channel" }
    else some { w with logger := { w.logger with closeChan := true } }
  | Action.wgWait => if w.logger.wg = 0 then some w else none

/-- A call run to completion with no other goroutine scheduled in between. -/
def runActions (w : World) : List Action → Option World
  | [] => some w
  | a :: rest => (applyAction w a).bind (fun w1 => runActions w1 rest)

/-- `Logger.dispatchLogs`: default the consumer count, start the goroutines;
goroutine `i` is the one at position `i` of `workers`. -/
def dispatchLogs (w : World) : World :=
  let n := if w.logger.config.LogConsumeNum ≤ 0 then 3 else w.logger.config.LogConsumeNum
  { w with
    logger := { w.logger with config := { w.logger.config with LogConsumeNum := n } }
    workers := w.workers ++ List.replicate n.toNat Worker.spawned }

/-- `NewLogger`. `make(chan, n)` panics with "makechan: size out of range" for
a negative `n`, which the default of lines 46-48 excludes only when `Debug` is
off, and for an `n` whose buffer the runtime cannot allocate (`env.makeChan`). -/
def NewLogger (env : Env) (config : LogConfig) : Except String World :=
  let config : LogConfig :=
    if ¬ config.Debug then
      if config.LogChanNum ≤ 0 then { config with LogChanNum := 100 } else config
    else config
  if config.LogChanNum < 0 ∨ env.makeChan config.LogChanNum = false then
    Except.error "makechan: size out of range"
  else
    let logSystem : World :=
      { logger := { config := config, logChan := [], wg := 0, closed := false,
                    closeChan := false },
        workers := [], dingSent := [], putLogs := [], stdout := [], panicked := none }
    if ¬ config.Debug then Except.ok (dispatchLogs logSystem) else Except.ok logSystem

/-- One call of the public interface made by the calling goroutine; a logging
call carries the two clock readings `getTimeUnix` may take. -/
inductive Call where
  | log (message : Payload) (types : String) (now1 now2 : Int)
  | close
  deriving DecidableEq, Repr

/-- The world plus the calling goroutine: the actions left of the call in
progress, the calls still to make, and the number of calls that returned. -/
structure Sys where
  world : World
  pending : List Action
  program : List Call
  returned : Nat
  deriving DecidableEq, Repr

/-- A scheduling choice. `invoke` and `act` move the calling goroutine;
`boot`, `recv`, `put`, `done` and `exit` move dispatch goroutine `i`: its
opening `fmt.Println`, the `logChan` case of its `select`, the `PutLogs` call
(with the error it returns, if any), `wg.Done()`, and the `closeChan` case of
its `select`. -/
inductive Event where
  | invoke
  | act
  | boot (i : Nat)
  | recv (i : Nat)
  | put (i : Nat) (err : Option String)
  | done (i : Nat)
  | exit (i : Nat)
  deriving DecidableEq, Repr

/-- The actions of a call, read off the logger as the call starts. -/
def callActions (env : Env) (l : Logger) : Call → List Action
  | Call.log message types now1 now2 => doLog l env now1 now2 message types
  | Call.close => Close l

/-- One atomic step of the system; `none` when the chosen goroutine cannot take
that step in this state. -/
def step (env : Env) (s : Sys) (e : Event) : Option Sys :=
  if s.world.panicked.isSome then none else
  match e with
  | Event.invoke =>
    match s.pending, s.program with
    | [], c :: rest =>
      let acts := callActions env s.world.logger c
      some { s with pending := acts, program := rest,
                    returned := if acts = [] then s.returned + 1 else s.returned }
    | _, _ => none
  | Event.act =>
    match s.pending with
    | [] => none
    | a :: rest =>
      (applyAction s.world a).map (fun w =>
        { s with world := w, pending := rest,
                 returned := if rest = [] ∧ w.panicked = none then s.returned + 1
                             else s.returned })
  | Event.boot i =>
    match s.world.workers.get? i with
    | some Worker.spawned =>
      some { s with world := { s.world with
        stdout := s.world.stdout ++ [Printed.text ("启动第" ++ toString i ++ "个协程")]
        workers := s.world.workers.set i Worker.idle } }
    | _ => none
  | Event.recv i =>
    match s.world.workers.get? i, s.world.logger.logChan with
    | some Worker.idle, logGroup :: rest =>
      some { s with world := { s.world with
        logger := { s.world.logger with logChan := rest }
        workers := s.world.workers.set i (Worker.got logGroup) } }
    | _, _ => none
  | Event.put i err =>
    match s.world.workers.get? i with
    | some (Worker.got logGroup) =>
      some { s with world := { s.world with
        putLogs := s.world.putLogs ++ [logGroup]
        dingSent := match err with
          | some text => s.world.dingSent ++ [" 日志推送SLS失败，err：" ++ text]
          | none => s.world.dingSent
        workers := s.world.workers.set i Worker.afterPut } }
    | _ => none
  | Event.done i =>
    match s.world.workers.get? i with
    | some Worker.afterPut =>
      let v := s.world.logger.wg - 1
      some { s with world := { s.world with
        logger := { s.world.logger with wg := v }
        panicked := if v < 0 then some "sync: negative WaitGroup counter" else none
        workers := s.world.workers.set i Worker.idle } }
    | _ => none
  | Event.exit i =>
    match s.world.workers.get? i with
    | some Worker.idle =>
      if s.world.logger.closeChan then
        some { s with world := { s.world with
          logger := { s.world.logger with closed := true }
          workers := s.world.workers.set i Worker.exited } }
      else none
    | _ => none

/-- A schedule run from a state. -/
def run (env : Env) (s : Sys) : List Event → Option Sys
  | [] => some s
  | e :: rest => (step env s e).bind (fun s1 => run env s1 rest)

/-- The system right after `NewLogger(config)`, about to make the calls of `program`. -/
def start (env : Env) (config : LogConfig) (program : List Call) : Except String Sys :=
  (NewLogger env config).map (fun w =>
    { world := w, pending := [], program := program, returned := 0 })

/-- States some schedule reaches from `s`. -/
def Reachable (env : Env) (s t : Sys) : Prop := ∃ sched, run env s sched = some t

/-! ## Entry points and example collaborators -/

/-- `Logger.Info`. -/
def Info (l : Logger) (env : Env) (now1 now2 : Int) (message : Payload) : List Action :=
  doLog l env now1 now2 message "Info"

/-- `Logger.Error`. -/
def Error (l : Logger) (env : Env) (now1 now2 : Int) (message : Payload) : List Action :=
  doLog l env now1 now2 message "Error"

/-- `Logger.Debug`. -/
def Debug (l : Logger) (env : Env) (now1 now2 : Int) (message : Payload) : List Action :=
  doLog l env now1 now2 message "Debug"

/-- `Logger.Warn`. -/
def Warn (l : Logger) (env : Env) (now1 now2 : Int) (message : Payload) : List Action :=
  doLog l env now1 now2 message "Warn"

/-- `Logger.DPanic`. -/
def DPanic (l : Logger) (env : Env) (now1 now2 : Int) (message : Payload) : List Action :=
  doLog l env now1 now2 message "DPanic"

/-- `Logger.Panic`. -/
def Panic (l : Logger) (env : Env) (now1 now2 : Int) (message : Payload) : List Action :=
  doLog l env now1 now2 message "Panic"

/-- `Logger.Fatal`. -/
def Fatal (l : Logger) (env : Env) (now1 now2 : Int) (message : Payload) : List Action :=
  doLog l env now1 now2 message "Fatal"

/-- Whether the type switch of `doLog` has a case for the payload. -/
def Payload.supported : Payload → Bool
  | Payload.str _ => true
  | Payload.message _ => true
  | _ => false

/-- JSON text of a Go string that holds no character `json.Marshal` escapes. -/
def jsonString (s : String) : String := "\"" ++ s ++ "\""

/-- JSON text of a `Msg`. -/
def jsonMsg (m : Msg) : String :=
  "\x7b\"Key\":" ++ jsonString m.Key ++ ",\"Val\":" ++ jsonString m.Val ++ "\x7d"

/-- JSON text of a `Message`; a `Message` without pairs holds the nil slice. -/
def jsonMessage (m : Message) : String :=
  "\x7b\"Timezone\":" ++ jsonString m.Timezone ++ ",\"Cate\":" ++ jsonString m.Cate
    ++ ",\"Message\":"
    ++ (if m.Message = [] then "null" else "[" ++ ",".intercalate (m.Message.map jsonMsg) ++ "]")
    ++ "\x7d"

/-- A `json.Marshal` for the examples: integers, strings, `Message` values and
pointers to them serialize; the values behind `Payload.other` (a channel, a
function) make `json.Marshal` return an error. -/
def exampleMarshal : Payload → Option String
  | Payload.str s => some (jsonString s)
  | Payload.message m => some (jsonMessage m)
  | Payload.int n => some (toString n)
  | Payload.messagePtr m => some (jsonMessage m)
  | Payload.other _ => none

/-- The collaborators of the examples: the zone database knows the names
listed, and the process can allocate channel buffers of up to a million slots. -/
def exampleEnv : Env :=
  { marshal := exampleMarshal
    loadLocation := fun name => decide (name ∈ ["", "UTC", "Local", "Asia/Shanghai", "Europe/Paris"])
    makeChan := fun n => decide (n ≤ 1000000) }

/-- The configuration of `test/main.go`. -/
def mainConfig : LogConfig :=
  { ProjectName := "xxx", LogStoreName := "ttt", LogChanNum := 0, LogConsumeNum := 0,
    Debug := false }

/-- An open, non-debug logger as `NewLogger(mainConfig)` leaves it, with its
three dispatch goroutines started. -/
def exampleWorld : World :=
  { logger := { config := { mainConfig with LogChanNum := 100, LogConsumeNum := 3 },
                logChan := [], wg := 0, closed := false, closeChan := false },
    workers := [Worker.spawned, Worker.spawned, Worker.spawned],
    dingSent := [], putLogs := [], stdout := [], panicked := none }

/-- The structured payload of `test/main.go`. -/
def mainMessage : Message :=
  { Timezone := "", Cate := "product",
    Message := [{ Key := "title", Val := "我是标题" }, { Key := "content", Val := "我是正文" }] }

/-- The text `part` occurs in `text` as a contiguous run of characters. -/
def containsText (text part : String) : Prop := part.data <:+: text.data

/-- The example logger once `closeChan` is closed and dispatch goroutine 0 has
taken the `closeChan` case, setting `closed`. -/
def closedWorld : World :=
  { exampleWorld with
    logger := { exampleWorld.logger with closed := true, closeChan := true }
    workers := [Worker.exited, Worker.spawned, Worker.spawned]
    stdout := [Printed.text "启动第0个协程"] }

/-- An open, debug-mode logger as `NewLogger` leaves it: no dispatch goroutine. -/
def debugWorld : World :=
  { logger := { config := { mainConfig with Debug := true },
                logChan := [], wg := 0, closed := false, closeChan := false },
    workers := [], dingSent := [], putLogs := [], stdout := [], panicked := none }

/-! ## The program of `test/main.go` and some schedules -/

/-- The calls of `test/main.go`: `Info(...)`, `Error(data)`, `Close()`. -/
def mainProgram : List Call :=
  [Call.log (Payload.str "我是测试的info日志啊") "Info" 1700000000 1700000000,
   Call.log (Payload.message mainMessage) "Error" 1700000001 1700000001,
   Call.close]

/-- The system of `test/main.go` right after `NewLogger(config)`. -/
def mainStart : Sys :=
  { world := exampleWorld, pending := [], program := mainProgram, returned := 0 }

/-- The group `Info(...)` of `test/main.go` sends. -/
def mainInfoGroup : LogGroup :=
  { Topic := "Info", Category := "",
    Logs := [{ Time := 1700000000,
               Contents := [{ Key := "message", Value := "我是测试的info日志啊" }] }] }

/-- The group `Error(data)` of `test/main.go` sends. -/
def mainErrorGroup : LogGroup :=
  { Topic := "Error", Category := "product",
    Logs := [{ Time := 1700000001,
               Contents := [{ Key := "title", Value := "我是标题" },
                            { Key := "content", Value := "我是正文" }] }] }

/-- A schedule of `test/main.go`: both logging calls run to their return, then
`Close()` closes `closeChan`, then each dispatch goroutine is scheduled for the
first time, prints its line, and at its `select` takes the `closeChan` case. -/
def exitFirstSchedule : List Event :=
  [Event.invoke, Event.act, Event.act,
   Event.invoke, Event.act, Event.act,
   Event.invoke, Event.act,
   Event.boot 0, Event.exit 0, Event.boot 1, Event.exit 1, Event.boot 2, Event.exit 2]

/-- The state `exitFirstSchedule` ends in: `Close()` waits in `wg.Wait()`, both
groups sit in the channel, every dispatch goroutine has returned. -/
def exitFirstState : Sys :=
  { world :=
      { logger := { config := { mainConfig with LogChanNum := 100, LogConsumeNum := 3 },
                    logChan := [mainInfoGroup, mainErrorGroup], wg := 2, closed := true,
                    closeChan := true },
        workers := [Worker.exited, Worker.exited, Worker.exited],
        dingSent := [], putLogs := [],
        stdout := [Printed.text "启动第0个协程", Printed.text "启动第1个协程",
                   Printed.text "启动第2个协程"],
        panicked := none },
    pending := [Action.wgWait], program := [], returned := 2 }

/-- A schedule of the first call of `test/main.go`: dispatch goroutine 0 reaches
its `select`, the caller sends, then goroutine 0 receives the group, hands it to
`PutLogs` (which succeeds) and calls `wg.Done()` before the caller has reached
`wg.Add(1)`. -/
def doneBeforeAddSchedule : List Event :=
  [Event.boot 0, Event.invoke, Event.act, Event.recv 0, Event.put 0 none, Event.done 0]

/-- The state `doneBeforeAddSchedule` ends in. -/
def doneBeforeAddState : Sys :=
  { world :=
      { logger := { config := { mainConfig with LogChanNum := 100, LogConsumeNum := 3 },
                    logChan := [], wg := -1, closed := false, closeChan := false },
        workers := [Worker.idle, Worker.spawned, Worker.spawned],
        dingSent := [], putLogs := [mainInfoGroup],
        stdout := [Printed.text "启动第0个协程"],
        panicked := some "sync: negative WaitGroup counter" },
    pending := [Action.wgAdd 1],
    program := [Call.log (Payload.message mainMessage) "Error" 1700000001 1700000001,
                Call.close],
    returned := 0 }

/-- A caller that closes and then logs. -/
def closeThenLogProgram : List Call :=
  [Call.close, Call.log (Payload.str "x") "Info" 1700000000 1700000000]

/-- One call run by the caller alone: the call starts and its two actions follow. -/
def callAlone : List Event := [Event.invoke, Event.act, Event.act]

/-- The group `Info("x")` sends at the reading 1700000000. -/
def lateGroup : LogGroup :=
  { Topic := "Info", Category := "",
    Logs := [{ Time := 1700000000, Contents := [{ Key := "message", Value := "x" }] }] }

/-- A caller that closes twice. -/
def closeTwiceProgram : List Call := [Call.close, Call.close]

/-- The non-debug system of `NewLogger(mainConfig)` about to close and then log. -/
def closeThenLogStart : Sys :=
  { world := exampleWorld, pending := [], program := closeThenLogProgram, returned := 0 }

/-- The debug system about to close twice. -/
def debugCloseTwiceStart : Sys :=
  { world := debugWorld, pending := [], program := closeTwiceProgram, returned := 0 }

/-- The non-debug system of `NewLogger(mainConfig)` about to close twice. -/
def closeTwiceStart : Sys :=
  { world := exampleWorld, pending := [], program := closeTwiceProgram, returned := 0 }

/-- What the theorems on `Close` observe of a state: calls returned, `Check()`,
whether `closeChan` is closed, the channel content, the counter, the panic. -/
def observe (s : Sys) : Nat × Bool × Bool × List LogGroup × Int × Option String :=
  (s.returned, s.world.logger.Check, s.world.logger.closeChan, s.world.logger.logChan,
   s.world.logger.wg, s.world.panicked)

/-! ## Theorems -/

/-- The first of three concatenated texts occurs in the whole. -/
theorem containsText_head (a b c : String) : containsText (a ++ b ++ c) a := by
  unfold containsText
  simp only [String.data_append, List.append_assoc]
  exact (List.prefix_append _ _).isInfix

/-- The last of three concatenated texts occurs in the whole. -/
theorem containsText_last (a b c : String) : containsText (a ++ b ++ c) c := by
  unfold containsText
  simp only [String.data_append]
  exact (List.suffix_append _ _).isInfix

/-- C1. On a non-debug logger whose closed flag is false, a logging call with a
string payload `s` and tag `t` performs exactly one send followed by `wg.Add(1)`
and no notifier call; the group sent has topic `t`, category `""` and exactly
one record whose content is `[("message", s)]`. When the channel has a free slot
the call runs through and leaves the queue extended by that one group. -/
theorem doLog_string_enqueues_one_batch (env : Env) (w : World) (now1 now2 : Int)
    (s t : String)
    (hdebug : w.logger.config.Debug = false) (hclosed : w.logger.closed = false) :
    doLog w.logger env now1 now2 (Payload.str s) t =
        [Action.send { Topic := t, Category := "",
                       Logs := [{ Time := getTimeUnix env.loadLocation now1 now2 "",
                                  Contents := [{ Key := "message", Value := s }] }] },
         Action.wgAdd 1]
    ∧ (w.panicked = none → 0 ≤ w.logger.wg →
        (w.logger.logChan.length : Int) < w.logger.config.LogChanNum →
        runActions w (doLog w.logger env now1 now2 (Payload.str s) t) =
          some { w with logger := { w.logger with
            logChan := w.logger.logChan ++
              [{ Topic := t, Category := "",
                 Logs := [{ Time := getTimeUnix env.loadLocation now1 now2 "",
                            Contents := [{ Key := "message", Value := s }] }] }]
            wg := w.logger.wg + 1 } }) := by
  have hacts : doLog w.logger env now1 now2 (Payload.str s) t =
        [Action.send { Topic := t, Category := "",
                       Logs := [{ Time := getTimeUnix env.loadLocation now1 now2 "",
                                  Contents := [{ Key := "message", Value := s }] }] },
         Action.wgAdd 1] := by
    simp [doLog, hdebug, hclosed, Logger.Check, buildLogGroup, buildContent]
  refine ⟨hacts, ?_⟩
  intro hp hwg hroom
  have hneg : ¬ (w.logger.wg + 1 < 0) := by omega
  rw [hacts]
  simp [runActions, applyAction, hp, hroom, hneg]

/-- Witness for C1: `Info("hello")` on the example logger. -/
theorem doLog_string_enqueues_one_batch_witness :
    exampleWorld.logger.config.Debug = false ∧ exampleWorld.logger.closed = false ∧
    Info exampleWorld.logger exampleEnv 1700000000 1700000000 (Payload.str "hello") =
      [Action.send { Topic := "Info", Category := "",
                     Logs := [{ Time := getTimeUnix exampleEnv.loadLocation 1700000000 1700000000 "",
                                Contents := [{ Key := "message", Value := "hello" }] }] },
       Action.wgAdd 1] ∧
    (runActions exampleWorld
        (Info exampleWorld.logger exampleEnv 1700000000 1700000000 (Payload.str "hello"))).map
      (fun w => (w.logger.logChan.length, w.logger.wg, w.dingSent)) = some (1, 1, []) :=
  have h := doLog_string_enqueues_one_batch exampleEnv exampleWorld 1700000000 1700000000
    "hello" "Info" rfl rfl
  ⟨rfl, rfl, h.1, by
    have h2 := h.2 rfl (by decide) (by decide)
    simp only [Info]
    rw [h2]
    rfl⟩

/-- C2 as stated fails: the `Message` of `test/main.go` has two pairs, and the
group `Error(data)` sends holds one record (with both pairs), not two records. -/
theorem doLog_message_one_record_per_pair_counterexample :
    exampleWorld.logger.config.Debug = false ∧ exampleWorld.logger.closed = false ∧
    mainMessage.Message.length = 2 ∧
    doLog exampleWorld.logger exampleEnv 1700000000 1700000000
        (Payload.message mainMessage) "Error" =
      [Action.send { Topic := "Error", Category := "product",
                     Logs := [{ Time := 1700000000,
                                Contents := [{ Key := "title", Value := "我是标题" },
                                             { Key := "content", Value := "我是正文" }] }] },
       Action.wgAdd 1] ∧
    ¬ (∃ g, Action.send g ∈ doLog exampleWorld.logger exampleEnv 1700000000 1700000000
              (Payload.message mainMessage) "Error" ∧
            g.Logs.length = mainMessage.Message.length) := by
  refine ⟨rfl, rfl, rfl, by decide, ?_⟩
  have h : doLog exampleWorld.logger exampleEnv 1700000000 1700000000
        (Payload.message mainMessage) "Error" =
      [Action.send { Topic := "Error", Category := "product",
                     Logs := [{ Time := 1700000000,
                                Contents := [{ Key := "title", Value := "我是标题" },
                                             { Key := "content", Value := "我是正文" }] }] },
       Action.wgAdd 1] := by decide
  rw [h]
  rintro ⟨g, hg, hlen⟩
  simp at hg
  subst hg
  revert hlen
  decide

/-- C2, amended. On a non-debug logger whose closed flag is false, a logging
call with a `Message` of category `c` and non-empty pairs `(k1,v1),...,(kn,vn)`
performs exactly one send followed by `wg.Add(1)`; the group sent has topic `t`,
category `c` and exactly one record, whose content holds exactly the `n` pairs,
the i-th being `(ki,vi)`, in the order of the list. -/
theorem doLog_message_enqueues_one_record (env : Env) (w : World) (now1 now2 : Int)
    (m : Message) (t : String)
    (hdebug : w.logger.config.Debug = false) (hclosed : w.logger.closed = false)
    (hne : m.Message ≠ []) :
    ∃ g : LogGroup, ∃ r : Log,
      doLog w.logger env now1 now2 (Payload.message m) t = [Action.send g, Action.wgAdd 1]
      ∧ g.Topic = t ∧ g.Category = m.Cate ∧ g.Logs = [r]
      ∧ r.Time = getTimeUnix env.loadLocation now1 now2 m.Timezone
      ∧ r.Contents ≠ []
      ∧ r.Contents.length = m.Message.length
      ∧ (∀ i : Nat, r.Contents[i]? =
          (m.Message[i]?).map (fun v => ({ Key := v.Key, Value := v.Val } : LogContent)))
      ∧ (w.panicked = none → 0 ≤ w.logger.wg →
          (w.logger.logChan.length : Int) < w.logger.config.LogChanNum →
          runActions w (doLog w.logger env now1 now2 (Payload.message m) t) =
            some { w with logger := { w.logger with
              logChan := w.logger.logChan ++ [g], wg := w.logger.wg + 1 } }) := by
  refine ⟨{ Topic := t, Category := m.Cate,
            Logs := [{ Time := getTimeUnix env.loadLocation now1 now2 m.Timezone,
                       Contents := m.Message.map
                         (fun v => ({ Key := v.Key, Value := v.Val } : LogContent)) }] },
          { Time := getTimeUnix env.loadLocation now1 now2 m.Timezone,
            Contents := m.Message.map
              (fun v => ({ Key := v.Key, Value := v.Val } : LogContent)) }, ?_⟩
  have hacts : doLog w.logger env now1 now2 (Payload.message m) t =
      [Action.send { Topic := t, Category := m.Cate,
                     Logs := [{ Time := getTimeUnix env.loadLocation now1 now2 m.Timezone,
                                Contents := m.Message.map
                                  (fun v => ({ Key := v.Key, Value := v.Val } : LogContent)) }] },
       Action.wgAdd 1] := by
    simp [doLog, hdebug, hclosed, Logger.Check, buildLogGroup, buildContent, Function.comp_def]
  refine ⟨hacts, rfl, rfl, rfl, rfl, ?_, ?_, ?_, ?_⟩
  · simpa using hne
  · simp
  · intro i
    simp
  · intro hp hwg hroom
    have hneg : ¬ (w.logger.wg + 1 < 0) := by omega
    rw [hacts]
    simp [runActions, applyAction, hp, hroom, hneg]

/-- Witness for the amended C2: `Error(data)` of `test/main.go`. -/
theorem doLog_message_enqueues_one_record_witness :
    exampleWorld.logger.config.Debug = false ∧ exampleWorld.logger.closed = false ∧
    mainMessage.Message ≠ [] ∧
    ∃ g : LogGroup, ∃ r : Log,
      doLog exampleWorld.logger exampleEnv 1700000000 1700000000
          (Payload.message mainMessage) "Error" = [Action.send g, Action.wgAdd 1]
      ∧ g.Topic = "Error" ∧ g.Category = "product" ∧ g.Logs = [r]
      ∧ r.Contents.length = 2 :=
  ⟨rfl, rfl, by decide,
   by
    obtain ⟨g, r, h1, h2, h3, h4, _, _, h7, _⟩ :=
      doLog_message_enqueues_one_record exampleEnv exampleWorld 1700000000 1700000000
        mainMessage "Error" rfl rfl (by decide)
    exact ⟨g, r, h1, h2, h3, h4, h7⟩⟩

/-- C3 as stated fails: for the payload `Payload.other 0` (a channel, say)
`json.Marshal` returns an error, there is no JSON text of the payload, and the
text `Info` passes to the notifier ends right after the fixed complaint. -/
theorem doLog_unsupported_json_counterexample :
    exampleWorld.logger.config.Debug = false ∧ exampleWorld.logger.closed = false ∧
    (Payload.other 0).supported = false ∧
    exampleEnv.marshal (Payload.other 0) = none ∧
    doLog exampleWorld.logger exampleEnv 1700000000 1700000000 (Payload.other 0) "Info" =
      [Action.ding "Info 日志写入失败，只允许传递string, Message 格式类型数据，原始数据："] ∧
    ¬ (∃ j, exampleEnv.marshal (Payload.other 0) = some j ∧
        containsText "Info 日志写入失败，只允许传递string, Message 格式类型数据，原始数据：" j) := by
  refine ⟨rfl, rfl, rfl, rfl, by decide, ?_⟩
  rintro ⟨j, hj, _⟩
  have hnone : exampleEnv.marshal (Payload.other 0) = none := rfl
  rw [hnone] at hj
  cases hj

/-- C3, amended. On a non-debug logger whose closed flag is false, a logging
call whose payload is neither a string nor a `Message` performs exactly one
action, a notifier call: no send and no `wg.Add`, so queue and counter stay as
they were. The text is the tag `t`, the fixed complaint, and `string(org)`: it
contains `t`; it contains the JSON text of the payload when `json.Marshal`
succeeds; and it ends right after the fixed complaint when `json.Marshal`
returns an error. -/
theorem doLog_unsupported_notifies_once (env : Env) (w : World) (now1 now2 : Int)
    (p : Payload) (t : String)
    (hdebug : w.logger.config.Debug = false) (hclosed : w.logger.closed = false)
    (hp : p.supported = false) :
    ∃ text : String,
      doLog w.logger env now1 now2 p t = [Action.ding text]
      ∧ text = t ++ " 日志写入失败，只允许传递string, Message 格式类型数据，原始数据："
                ++ orgString env p
      ∧ containsText text t
      ∧ (∀ j, env.marshal p = some j → containsText text j)
      ∧ (env.marshal p = none →
          text = t ++ " 日志写入失败，只允许传递string, Message 格式类型数据，原始数据：")
      ∧ (w.panicked = none →
          runActions w (doLog w.logger env now1 now2 p t) =
            some { w with dingSent := w.dingSent ++ [text] }) := by
  refine ⟨t ++ " 日志写入失败，只允许传递string, Message 格式类型数据，原始数据："
            ++ orgString env p, ?_, rfl, containsText_head _ _ _, ?_, ?_, ?_⟩
  · cases p <;> simp_all [Payload.supported, doLog, Logger.Check]
  · intro j hj
    have h := containsText_last t
      " 日志写入失败，只允许传递string, Message 格式类型数据，原始数据：" (orgString env p)
    simpa [orgString, hj] using h
  · intro hnone
    simp [orgString, hnone]
  · intro hpan
    have hacts : doLog w.logger env now1 now2 p t =
        [Action.ding (t ++ " 日志写入失败，只允许传递string, Message 格式类型数据，原始数据："
            ++ orgString env p)] := by
      cases p <;> simp_all [Payload.supported, doLog, Logger.Check]
    rw [hacts]
    simp [runActions, applyAction, hpan]

/-- Witness for the amended C3: `Info(42)` on the example logger. -/
theorem doLog_unsupported_notifies_once_witness :
    exampleWorld.logger.config.Debug = false ∧ exampleWorld.logger.closed = false ∧
    (Payload.int 42).supported = false ∧
    ∃ text : String,
      doLog exampleWorld.logger exampleEnv 1700000000 1700000000 (Payload.int 42) "Info" =
        [Action.ding text]
      ∧ text = "Info" ++ " 日志写入失败，只允许传递string, Message 格式类型数据，原始数据："
                ++ orgString exampleEnv (Payload.int 42)
      ∧ containsText text "Info" ∧ containsText text "42" :=
  ⟨rfl, rfl, rfl, by
    obtain ⟨text, h1, h2, h3, h4, _, _⟩ :=
      doLog_unsupported_notifies_once exampleEnv exampleWorld 1700000000 1700000000
        (Payload.int 42) "Info" rfl rfl rfl
    exact ⟨text, h1, h2, h3, h4 "42" rfl⟩⟩

/-- C4 as stated fails: on the closed logger, for the payload `Payload.other 0`
(a channel, say) `json.Marshal` returns an error, there is no JSON text of the
payload, and the text `Fatal` passes to the notifier ends right after the fixed
text. -/
theorem doLog_closed_json_counterexample :
    closedWorld.logger.config.Debug = false ∧ closedWorld.logger.closed = true ∧
    exampleEnv.marshal (Payload.other 0) = none ∧
    doLog closedWorld.logger exampleEnv 1700000000 1700000000 (Payload.other 0) "Fatal" =
      [Action.ding "Fatal 日志写入失败，日志通道已关闭，原始数据："] ∧
    ¬ (∃ j, exampleEnv.marshal (Payload.other 0) = some j ∧
        containsText "Fatal 日志写入失败，日志通道已关闭，原始数据：" j) := by
  refine ⟨rfl, rfl, rfl, by decide, ?_⟩
  rintro ⟨j, hj, _⟩
  have hnone : exampleEnv.marshal (Payload.other 0) = none := rfl
  rw [hnone] at hj
  cases hj

/-- C4, amended. On a non-debug logger whose closed flag is true, a logging call
with any payload performs exactly one action, a notifier call (one also for a
payload the type switch would reject): no send and no `wg.Add`, so queue and
counter stay as they were. The text is the tag `t`, the fixed text, and
`string(org)`: it contains `t`; it contains the JSON text of the payload when
`json.Marshal` succeeds; and it ends right after the fixed text when
`json.Marshal` returns an error. -/
theorem doLog_closed_notifies_once (env : Env) (w : World) (now1 now2 : Int)
    (p : Payload) (t : String)
    (hdebug : w.logger.config.Debug = false) (hclosed : w.logger.closed = true) :
    ∃ text : String,
      doLog w.logger env now1 now2 p t = [Action.ding text]
      ∧ text = t ++ " 日志写入失败，日志通道已关闭，原始数据：" ++ orgString env p
      ∧ containsText text t
      ∧ (∀ j, env.marshal p = some j → containsText text j)
      ∧ (env.marshal p = none → text = t ++ " 日志写入失败，日志通道已关闭，原始数据：")
      ∧ (w.panicked = none →
          runActions w (doLog w.logger env now1 now2 p t) =
            some { w with dingSent := w.dingSent ++ [text] }) := by
  have hacts : doLog w.logger env now1 now2 p t =
      [Action.ding (t ++ " 日志写入失败，日志通道已关闭，原始数据：" ++ orgString env p)] := by
    simp [doLog, hdebug, hclosed, Logger.Check]
  refine ⟨t ++ " 日志写入失败，日志通道已关闭，原始数据：" ++ orgString env p,
          hacts, rfl, containsText_head _ _ _, ?_, ?_, ?_⟩
  · intro j hj
    have h := containsText_last t " 日志写入失败，日志通道已关闭，原始数据：" (orgString env p)
    simpa [orgString, hj] using h
  · intro hnone
    simp [orgString, hnone]
  · intro hpan
    rw [hacts]
    simp [runActions, applyAction, hpan]

/-- Witness for the amended C4: `Warn(7)` on the closed example logger. -/
theorem doLog_closed_notifies_once_witness :
    closedWorld.logger.config.Debug = false ∧ closedWorld.logger.closed = true ∧
    ∃ text : String,
      doLog closedWorld.logger exampleEnv 1700000000 1700000000 (Payload.int 7) "Warn" =
        [Action.ding text]
      ∧ containsText text "Warn" ∧ containsText text "7" :=
  ⟨rfl, rfl, by
    obtain ⟨text, h1, _, h3, h4, _, _⟩ :=
      doLog_closed_notifies_once exampleEnv closedWorld
        1700000000 1700000000 (Payload.int 7) "Warn" rfl rfl
    exact ⟨text, h1, h3, h4 "7" rfl⟩⟩

/-- C8. With `Debug = true` a logging call with any payload and tag performs
exactly one action, the print of the tag and the payload: the logger (queue,
counter, closed flag), the notifier record, the backend record and the dispatch
goroutines are as before. `NewLogger` with `Debug = true` starts no dispatch
goroutine: it returns a logger without goroutines when `LogChanNum` is not
negative and the runtime can allocate the channel buffer, and panics in
`make(chan)` otherwise. -/
theorem doLog_debug_bypass (env : Env) (w : World) (now1 now2 : Int)
    (p : Payload) (t : String) (config : LogConfig)
    (hdebug : w.logger.config.Debug = true) (hpan : w.panicked = none)
    (hconfig : config.Debug = true) :
    doLog w.logger env now1 now2 p t = [Action.println ("[" ++ t ++ "]:") p]
    ∧ (∃ w1 : World, runActions w (doLog w.logger env now1 now2 p t) = some w1
        ∧ w1.logger = w.logger ∧ w1.dingSent = w.dingSent ∧ w1.putLogs = w.putLogs
        ∧ w1.workers = w.workers ∧ w1.panicked = none
        ∧ w1.stdout = w.stdout ++ [Printed.tagged ("[" ++ t ++ "]:") p])
    ∧ (∀ w0, NewLogger env config = Except.ok w0 → w0.workers = [])
    ∧ (0 ≤ config.LogChanNum → env.makeChan config.LogChanNum = true →
        ∃ w0, NewLogger env config = Except.ok w0 ∧ w0.workers = []
        ∧ w0.logger.config = config ∧ w0.logger.logChan = [] ∧ w0.logger.wg = 0)
    ∧ (config.LogChanNum < 0 ∨ env.makeChan config.LogChanNum = false →
        NewLogger env config = Except.error "makechan: size out of range") := by
  have hacts : doLog w.logger env now1 now2 p t = [Action.println ("[" ++ t ++ "]:") p] := by
    simp [doLog, hdebug]
  refine ⟨hacts, ?_, ?_, ?_, ?_⟩
  · rw [hacts]
    exact ⟨{ w with stdout := w.stdout ++ [Printed.tagged ("[" ++ t ++ "]:") p] },
      by simp [runActions, applyAction, hpan], rfl, rfl, rfl, rfl, hpan, rfl⟩
  · intro w0 h0
    by_cases hbad : config.LogChanNum < 0 ∨ env.makeChan config.LogChanNum = false
    · simp [NewLogger, hconfig, hbad] at h0
    · simp only [NewLogger, hconfig, not_true_eq_false, if_false] at h0
      rw [if_neg hbad] at h0
      simp [hconfig] at h0
      rw [← h0]
  · intro hcap hmk
    have hbad : ¬ (config.LogChanNum < 0 ∨ env.makeChan config.LogChanNum = false) := by
      rw [hmk]
      simp
      omega
    refine ⟨{ logger := { config := config, logChan := [], wg := 0, closed := false,
                          closeChan := false },
              workers := [], dingSent := [], putLogs := [], stdout := [], panicked := none },
      ?_, rfl, rfl, rfl, rfl⟩
    simp only [NewLogger, hconfig, not_true_eq_false, if_false]
    rw [if_neg hbad]
  · intro hbad
    simp only [NewLogger, hconfig, not_true_eq_false, if_false]
    rw [if_pos hbad]

/-- Witness for C8: `Info("x")` on the debug logger of `NewLogger`. -/
theorem doLog_debug_bypass_witness :
    debugWorld.logger.config.Debug = true ∧ debugWorld.panicked = none ∧
    debugWorld.logger.config.Debug = true ∧
    NewLogger exampleEnv debugWorld.logger.config = Except.ok debugWorld ∧
    doLog debugWorld.logger exampleEnv 1700000000 1700000000 (Payload.str "x") "Info" =
      [Action.println ("[" ++ "Info" ++ "]:") (Payload.str "x")] :=
  ⟨rfl, rfl, rfl, rfl,
   (doLog_debug_bypass exampleEnv debugWorld 1700000000 1700000000 (Payload.str "x") "Info"
      debugWorld.logger.config rfl rfl rfl).1⟩

/-- C10 as stated fails: at the clock reading 4294967296 (2106-02-07 06:28:16
UTC) the conversion to `uint32` gives 0, for the empty zone name with every
lookup succeeding. -/
theorem getTimeUnix_at_least_one_counterexample :
    exampleEnv.loadLocation "Asia/Shanghai" = true ∧
    getTimeUnix exampleEnv.loadLocation 4294967296 4294967296 "" = 0 ∧
    ¬ (1 ≤ getTimeUnix exampleEnv.loadLocation 4294967296 4294967296 "") := by
  decide

/-- C10, amended. `getTimeUnix` is total and returns epoch seconds converted to
`uint32`, that is modulo 2^32: the reading taken for the named zone when the
name is non-empty, resolves and converts to a value of at least 1; otherwise
the reading taken in the fallback block, the same whether "Asia/Shanghai"
resolves (default zone) or not (raw UTC). The result is at least 1 whenever the
fallback reading is not a multiple of 2^32. -/
theorem getTimeUnix_fallback (loadLocation : String → Bool) (now1 now2 : Int)
    (timeLocation : String) :
    getTimeUnix loadLocation now1 now2 timeLocation =
      (if timeLocation ≠ "" ∧ loadLocation timeLocation = true ∧ 1 ≤ uint32 now1
       then uint32 now1 else uint32 now2)
    ∧ uint32 now1 = (now1 % 4294967296).toNat
    ∧ uint32 now2 = (now2 % 4294967296).toNat
    ∧ getTimeUnix loadLocation now1 now2 timeLocation < 4294967296
    ∧ (now2 % 4294967296 ≠ 0 → 1 ≤ getTimeUnix loadLocation now1 now2 timeLocation) := by
  have h1 : uint32 now1 < 4294967296 := by unfold uint32; omega
  have h2 : uint32 now2 < 4294967296 := by unfold uint32; omega
  have heq : getTimeUnix loadLocation now1 now2 timeLocation =
      (if timeLocation ≠ "" ∧ loadLocation timeLocation = true ∧ 1 ≤ uint32 now1
       then uint32 now1 else uint32 now2) := by
    unfold getTimeUnix unixIn
    by_cases hz : timeLocation = ""
    · simp [hz]
    · by_cases hl : loadLocation timeLocation = true
      · by_cases hn : 1 ≤ uint32 now1
        · have hn2 : ¬ uint32 now1 < 1 := by omega
          simp [hz, hl, hn, hn2]
        · have hn2 : uint32 now1 < 1 := by omega
          simp [hz, hl, hn, hn2]
      · simp [hz, hl]
  refine ⟨heq, rfl, rfl, ?_, ?_⟩
  · rw [heq]; split <;> assumption
  · intro hnow
    have h3 : 1 ≤ uint32 now2 := by unfold uint32; omega
    rw [heq]
    split
    · rename_i h; exact h.2.2
    · exact h3

/-- Witness for the amended C10: an unknown zone name falls back to the second
reading, which is not a multiple of 2^32. -/
theorem getTimeUnix_fallback_witness :
    (1700000005 : Int) % 4294967296 ≠ 0 ∧
    getTimeUnix exampleEnv.loadLocation 1700000000 1700000005 "Mars/Olympus" = 1700000005 ∧
    1 ≤ getTimeUnix exampleEnv.loadLocation 1700000000 1700000005 "Mars/Olympus" :=
  ⟨by decide,
   by decide,
   (getTimeUnix_fallback exampleEnv.loadLocation 1700000000 1700000005 "Mars/Olympus").2.2.2.2
      (by decide)⟩

/-- C5, evaluated on the code: the program of `test/main.go` (two accepted
submissions, then `Close()`) has a schedule after which every dispatch goroutine
has returned on the shutdown signal while both groups are still in the channel,
the counter is 2, nothing reached `PutLogs`, and `Close()` is inside
`wg.Wait()`; from that state no goroutine can take a step, so `Close()` never
returns and the groups are never delivered. -/
theorem close_can_strand_accepted_batches :
    start exampleEnv mainConfig mainProgram = Except.ok mainStart ∧
    run exampleEnv mainStart exitFirstSchedule = some exitFirstState ∧
    Reachable exampleEnv mainStart exitFirstState ∧
    exitFirstState.world.workers = [Worker.exited, Worker.exited, Worker.exited] ∧
    exitFirstState.world.logger.logChan = [mainInfoGroup, mainErrorGroup] ∧
    exitFirstState.world.logger.wg = 2 ∧
    exitFirstState.world.putLogs = [] ∧
    exitFirstState.pending = [Action.wgWait] ∧
    (∀ e, step exampleEnv exitFirstState e = none) ∧
    (∀ sched s1, run exampleEnv exitFirstState sched = some s1 → s1 = exitFirstState) := by
  have hstuck : ∀ e, step exampleEnv exitFirstState e = none := by
    intro e
    cases e with
    | invoke => rfl
    | act => rfl
    | boot i => rcases i with _ | _ | _ | i <;> rfl
    | recv i => rcases i with _ | _ | _ | i <;> rfl
    | put i err => rcases i with _ | _ | _ | i <;> rfl
    | done i => rcases i with _ | _ | _ | i <;> rfl
    | exit i => rcases i with _ | _ | _ | i <;> rfl
  refine ⟨rfl, by decide, ⟨exitFirstSchedule, by decide⟩, rfl, rfl, rfl, rfl, rfl, hstuck, ?_⟩
  intro sched s1 h
  cases sched with
  | nil => simpa [run] using h.symm
  | cons e rest => simp [run, hstuck e] at h

/-- C9, evaluated on the code: in the first logging call of `test/main.go` the
send comes before `wg.Add(1)`; scheduling a dispatch goroutine in between, its
`wg.Done()` runs while the counter is 0 and leaves it at -1, where
`sync.WaitGroup` panics. -/
theorem done_before_add_makes_counter_negative :
    start exampleEnv mainConfig mainProgram = Except.ok mainStart ∧
    (run exampleEnv mainStart doneBeforeAddSchedule.dropLast).map
      (fun s => (s.world.logger.wg, s.pending)) = some (0, [Action.wgAdd 1]) ∧
    run exampleEnv mainStart doneBeforeAddSchedule = some doneBeforeAddState ∧
    Reachable exampleEnv mainStart doneBeforeAddState ∧
    doneBeforeAddState.world.logger.wg = -1 ∧
    ¬ (0 ≤ doneBeforeAddState.world.logger.wg) ∧
    doneBeforeAddState.world.panicked = some "sync: negative WaitGroup counter" := by
  refine ⟨rfl, by decide, by decide, ⟨doneBeforeAddSchedule, by decide⟩, rfl, by decide, rfl⟩

/-- C6, evaluated on the code: `Close()` called with the counter at 0 returns
before any dispatch goroutine has set `closed`. With `Debug = true` no such
goroutine exists, and `Check()` is false after `Close()` returned; without
`Debug`, `Check()` is false after `Close()` returned until a dispatch goroutine
runs, and `Info("x")` called then sends its group and raises the counter. -/
theorem check_false_after_close_returned :
    start exampleEnv { mainConfig with Debug := true } closeTwiceProgram = Except.ok debugCloseTwiceStart ∧
    (run exampleEnv debugCloseTwiceStart callAlone).map observe =
      some (1, false, true, [], 0, none) ∧
    start exampleEnv mainConfig closeThenLogProgram = Except.ok closeThenLogStart ∧
    (run exampleEnv closeThenLogStart callAlone).map observe =
      some (1, false, true, [], 0, none) ∧
    (run exampleEnv closeThenLogStart (callAlone ++ callAlone)).map observe =
      some (2, false, true, [lateGroup], 1, none) := by
  refine ⟨rfl, rfl, rfl, rfl, rfl⟩

/-- C7, evaluated on the code: a second `Close()` made after the first returned
finds `Check()` still false and closes `closeChan` again, which panics. With
`Debug = true` this is the only schedule; without `Debug` it is the schedule in
which no dispatch goroutine ran in between. -/
theorem second_close_panics :
    start exampleEnv { mainConfig with Debug := true } closeTwiceProgram = Except.ok debugCloseTwiceStart ∧
    (run exampleEnv debugCloseTwiceStart callAlone).map observe =
      some (1, false, true, [], 0, none) ∧
    (run exampleEnv debugCloseTwiceStart (callAlone ++ [Event.invoke, Event.act])).map observe =
      some (1, false, true, [], 0, some "close of closed channel") ∧
    start exampleEnv mainConfig closeTwiceProgram = Except.ok closeTwiceStart ∧
    (run exampleEnv closeTwiceStart (callAlone ++ [Event.invoke, Event.act])).map observe =
      some (1, false, true, [], 0, some "close of closed channel") := by
  refine ⟨rfl, rfl, rfl, rfl, rfl⟩

end GoLogSls
